import Mathlib

/-!
Verification of the `zstd` synchronization layer (STL-like mutexes and
thread facilities on top of a real-time kernel) against its design
specification.

The embedding follows the sources:
  src/lib/zstd/src/mutex.cpp   — mutex / recursive_mutex bodies, slab new/delete
  src/include/zstd/mutex.h     — timed_mutex / recursive_timed_mutex templates
  src/include/zstd/thread.h    — thread, thread::id, this_thread sleep helpers
plus the visible fragment of the thread implementation (thread::id
constructors, hardware_concurrency, this_thread::get_id / yield, and the
thread stack pool definition).

The host kernel's primitives (`k_mutex_lock`, `k_mutex_unlock`,
`k_mem_slab_alloc`, `k_mem_slab_free`) are part of the surrounding kernel
tree, not of the adapter sources; they are modelled from the
specification's description of the Kernel Primitive Adapter
(counted-ownership mutex, non-blocking slab allocator) and are marked as
such in their doc comments.
-/

set_option maxHeartbeats 1000000

namespace Zstd

/-- Kernel thread identifier (`k_tid_t`), modelled as a natural number
standing for the address of the kernel thread object; `0` is the null
handle ("no thread"). -/
abbrev KTid := Nat

/-- State of one kernel mutual-exclusion object (`struct k_mutex`): the
recursion lock count and the recorded owner identity, the two fields the
adapter reads through `m_mtx_ptr->lock_count` and `m_mtx_ptr->owner`. -/
structure KMutex where
  lock_count : Nat
  owner : KTid
deriving DecidableEq

/-- State right after `k_mutex_init`: unlocked, zero recursion count,
null owner. -/
def k_mutex_init : KMutex := ⟨0, 0⟩

/-- Timeout argument of a kernel mutex acquire: `K_NO_WAIT` (the literal
`0` passed by `try_lock`), a bounded wait of `n` milliseconds, or
`K_FOREVER`. -/
inductive KTimeout where
  | noWait
  | ms (n : Nat)
  | forever
deriving DecidableEq

/-- Outcome of a kernel mutex acquire: ownership granted (with the new
kernel state), a busy / timed-out failure (nonzero return code), or
suspension of the caller in the kernel wait queue. -/
inductive KLockOutcome where
  | acquired (s : KMutex)
  | busy
  | blocks
deriving DecidableEq

/-- Modelled from the spec: `k_mutex_lock`, the host kernel's
counted-ownership acquire (the Kernel Primitive Adapter's blocking,
non-blocking and bounded-wait acquire); its implementation is not under
`src/`.  Per the spec's data model, the kernel object holds an owner
identity and a lock count: a free mutex is granted to the caller,
re-entry by the recorded owner increments the count, and a mutex held by
another thread suspends the caller under `K_FOREVER` while a zero or
bounded wait that elapses without a release reports a busy/timeout
failure. -/
def k_mutex_lock (s : KMutex) (tid : KTid) (t : KTimeout) : KLockOutcome :=
  if s.lock_count = 0 then .acquired ⟨1, tid⟩
  else if s.owner = tid then .acquired ⟨s.lock_count + 1, s.owner⟩
  else
    match t with
    | .forever => .blocks
    | _ => .busy

/-- Modelled from the spec: `k_mutex_unlock`, the host kernel's release;
its implementation is not under `src/`.  A release by the recorded owner
drops one level of ownership (clearing the owner at zero) and reports
success (`0`); a release by a thread that does not hold the mutex is
rejected with a nonzero error code and leaves the state unchanged. -/
def k_mutex_unlock (s : KMutex) (tid : KTid) : KMutex × Int :=
  if 0 < s.lock_count ∧ s.owner = tid then
    (⟨s.lock_count - 1, if s.lock_count = 1 then 0 else s.owner⟩, 0)
  else (s, -1)

/-- Result of `lock()` as observed by the caller: normal return with the
new kernel state, a thrown `system_error(EDEADLK)` (ResourceDeadlock), a
thrown `system_error` carrying a nonzero kernel code, or suspension in
the kernel wait. -/
inductive LockResult where
  | ok (s : KMutex)
  | deadlock
  | kernelErr (code : Int)
  | suspended
deriving DecidableEq

/-- Result of the non-blocking and bounded acquires (`try_lock`,
`try_lock_for`, `try_lock_until`) as observed by the caller: returned
`true` with the new kernel state, returned `false`, or threw
`system_error(EDEADLK)` (ResourceDeadlock). -/
inductive TryResult where
  | ok (s : KMutex)
  | failed
  | deadlock
deriving DecidableEq

/-- Body of `mutex::lock` (src/lib/zstd/src/mutex.cpp:104-116): if
`lock_count > 0` and `k_current_get() == owner`, throw
`system_error(EDEADLK)`; otherwise `k_mutex_lock(m_mtx_ptr, K_FOREVER)`,
throwing on a nonzero return. -/
def mutex.lock (s : KMutex) (cur : KTid) : LockResult :=
  if 0 < s.lock_count ∧ cur = s.owner then .deadlock
  else
    match k_mutex_lock s cur .forever with
    | .acquired s' => .ok s'
    | .busy => .kernelErr (-1)
    | .blocks => .suspended

/-- Body of `mutex::try_lock` (src/lib/zstd/src/mutex.cpp:121-135): the
same owner self-check, then `k_mutex_lock(m_mtx_ptr, 0)`, returning
whether the kernel call returned `0`. -/
def mutex.try_lock (s : KMutex) (cur : KTid) : TryResult :=
  if 0 < s.lock_count ∧ cur = s.owner then .deadlock
  else
    match k_mutex_lock s cur .noWait with
    | .acquired s' => .ok s'
    | _ => .failed

/-- Body of `mutex::unlock` (src/lib/zstd/src/mutex.cpp:137-140): the
single statement `k_mutex_unlock(m_mtx_ptr);` with the kernel's result
discarded.  The pair returned here is the resulting kernel state and
the error the caller observes; the body contains no throw and no check
of the kernel result, so the second component is `none` on every path. -/
def mutex.unlock (s : KMutex) (cur : KTid) : KMutex × Option Int :=
  ((k_mutex_unlock s cur).fst, none)

/-- Body of `recursive_mutex::lock` (src/lib/zstd/src/mutex.cpp:191-198):
no owner self-check, directly `k_mutex_lock(m_mtx_ptr, K_FOREVER)`. -/
def recursive_mutex.lock (s : KMutex) (cur : KTid) : LockResult :=
  match k_mutex_lock s cur .forever with
  | .acquired s' => .ok s'
  | .busy => .kernelErr (-1)
  | .blocks => .suspended

/-- Body of `recursive_mutex::try_lock` (src/lib/zstd/src/mutex.cpp:200-209):
no owner self-check, directly `k_mutex_lock(m_mtx_ptr, 0)`. -/
def recursive_mutex.try_lock (s : KMutex) (cur : KTid) : TryResult :=
  match k_mutex_lock s cur .noWait with
  | .acquired s' => .ok s'
  | _ => .failed

/-- Body of `recursive_mutex::unlock` (src/lib/zstd/src/mutex.cpp:211-214):
`k_mutex_unlock(m_mtx_ptr);` with the result discarded, as for
`mutex::unlock`. -/
def recursive_mutex.unlock (s : KMutex) (cur : KTid) : KMutex × Option Int :=
  ((k_mutex_unlock s cur).fst, none)

/-- Conversion of the signed 64-bit `duration_cast<...>.count()` value
into the `u64_t` local `ms` (modulo 2^64, the C++ signed-to-unsigned
conversion). -/
def toU64 (i : Int) : Nat := (i % (2 ^ 64 : Int)).toNat

/-- The `static_cast<u32_t>(ms)` applied at the kernel call boundary:
reduction modulo 2^32. -/
def toU32 (n : Nat) : Nat := n % 2 ^ 32

/-- The value of `duration_cast<milliseconds>(rel_time).count()` for a
duration of `count` ticks, each tick being `num / den` milliseconds:
integer arithmetic with division truncating toward zero, as C++
`duration_cast` performs on integral representations. -/
def durationCastMs (count num den : Int) : Int := Int.tdiv (count * num) den

/-- The millisecond timeout value the timed operations hand to
`k_mutex_lock` (and `sleep_for` to `k_sleep`): the duration cast to
milliseconds, stored into a `u64_t`, then `static_cast<u32_t>`. -/
def msTimeout (count num den : Int) : Nat := toU32 (toU64 (durationCastMs count num den))

/-- Body of `timed_mutex::try_lock_for` (src/include/zstd/mutex.h:149-166):
owner self-check throwing `EDEADLK`, then
`k_mutex_lock(m_mtx_ptr, static_cast<u32_t>(ms))` with
`u64_t ms = duration_cast<milliseconds>(rel_time).count()`. -/
def timed_mutex.try_lock_for (s : KMutex) (cur : KTid) (count num den : Int) : TryResult :=
  if 0 < s.lock_count ∧ cur = s.owner then .deadlock
  else
    match k_mutex_lock s cur (.ms (msTimeout count num den)) with
    | .acquired s' => .ok s'
    | _ => .failed

/-- Body of `timed_mutex::try_lock_until` (src/include/zstd/mutex.h:168-186):
owner self-check throwing `EDEADLK`, then the same conversion applied to
`abs_time - steady_clock::now()`.  `absCount` and `nowCount` are the two
time points' tick counts on the common `num / den`-millisecond tick. -/
def timed_mutex.try_lock_until (s : KMutex) (cur : KTid)
    (absCount nowCount num den : Int) : TryResult :=
  if 0 < s.lock_count ∧ cur = s.owner then .deadlock
  else
    match k_mutex_lock s cur (.ms (msTimeout (absCount - nowCount) num den)) with
    | .acquired s' => .ok s'
    | _ => .failed

/-- `timed_mutex` inherits `lock` from `mutex` (class timed_mutex :
public mutex, src/include/zstd/mutex.h:135). -/
def timed_mutex.lock : KMutex → KTid → LockResult := mutex.lock

/-- `timed_mutex` inherits `try_lock` from `mutex`. -/
def timed_mutex.try_lock : KMutex → KTid → TryResult := mutex.try_lock

/-- Body of `recursive_timed_mutex::try_lock_for`
(src/include/zstd/mutex.h:218-230): no owner self-check, the conversion
and bounded kernel acquire only. -/
def recursive_timed_mutex.try_lock_for (s : KMutex) (cur : KTid)
    (count num den : Int) : TryResult :=
  match k_mutex_lock s cur (.ms (msTimeout count num den)) with
  | .acquired s' => .ok s'
  | _ => .failed

/-- Body of `recursive_timed_mutex::try_lock_until`
(src/include/zstd/mutex.h:232-245): no owner self-check. -/
def recursive_timed_mutex.try_lock_until (s : KMutex) (cur : KTid)
    (absCount nowCount num den : Int) : TryResult :=
  match k_mutex_lock s cur (.ms (msTimeout (absCount - nowCount) num den)) with
  | .acquired s' => .ok s'
  | _ => .failed

/-- `recursive_timed_mutex` inherits `lock` from `recursive_mutex`
(class recursive_timed_mutex : public recursive_mutex,
src/include/zstd/mutex.h:204). -/
def recursive_timed_mutex.lock : KMutex → KTid → LockResult := recursive_mutex.lock

/-- `recursive_timed_mutex` inherits `try_lock` from `recursive_mutex`. -/
def recursive_timed_mutex.try_lock : KMutex → KTid → TryResult := recursive_mutex.try_lock

/-- The tick argument `this_thread::sleep_for` passes to `k_sleep`
(src/include/zstd/thread.h:74-80): identical conversion chain to the
timed mutex operations. -/
def this_thread.sleep_for_ticks (count num den : Int) : Nat := msTimeout count num den

/-- The tick argument `this_thread::sleep_until` passes to `k_sleep`
(src/include/zstd/thread.h:82-89): the conversion applied to
`abs_time - steady_clock::now()`. -/
def this_thread.sleep_until_ticks (absCount nowCount num den : Int) : Nat :=
  msTimeout (absCount - nowCount) num den

/-- The four mutex variants of the family. -/
inductive MutexVariant where
  | plain
  | recursive
  | timed
  | recursiveTimed
deriving DecidableEq

/-- The `MAX_MUTEX_SIZE` slot size of the shared slab
(src/lib/zstd/src/mutex.cpp:28-34): the maximum of the four variants'
object sizes, computed as
`MAX(MAX_SIZE(mutex, recursive_mutex), MAX_SIZE(timed_mutex, recursive_timed_mutex))`
for a given size assignment `sz`. -/
def MAX_MUTEX_SIZE (sz : MutexVariant → Nat) : Nat :=
  max (max (sz .plain) (sz .recursive)) (max (sz .timed) (sz .recursiveTimed))

/-- State of a fixed-capacity kernel memory slab: the build-time slot
count (`CONFIG_ZSTD_MUTEX_NEW_SLAB_MAX_COUNT` for `mutex_slab`) and the
number of slots currently handed out. -/
structure KMemSlab where
  capacity : Nat
  allocated : Nat
deriving DecidableEq

/-- A freshly defined slab of capacity `k` with every slot free. -/
def slab_init (k : Nat) : KMemSlab := ⟨k, 0⟩

/-- Modelled from the spec: `k_mem_slab_alloc` with `K_NO_WAIT`, the
kernel's non-blocking fixed-slot allocator; its implementation is not
under `src/`.  A free slot is handed out with return code `0`;
an exhausted slab fails immediately with a nonzero code and no state
change. -/
def k_mem_slab_alloc (s : KMemSlab) : KMemSlab × Int :=
  if s.allocated < s.capacity then ({ s with allocated := s.allocated + 1 }, 0)
  else (s, -12)

/-- Modelled from the spec: `k_mem_slab_free`, returning one slot to the
slab; its implementation is not under `src/`. -/
def k_mem_slab_free (s : KMemSlab) : KMemSlab :=
  { s with allocated := s.allocated - 1 }

/-- Outcome of a slab-backed `operator new`: the allocation succeeded
(with the new slab state) or `bad_alloc` was thrown. -/
inductive NewResult where
  | ok (s : KMemSlab)
  | badAlloc
deriving DecidableEq

/-- The shared body of the slab `operator new` of all four variants
(src/lib/zstd/src/mutex.cpp:78-89, 172-183, 244-255, 287-297):
`k_mem_slab_alloc(&mutex_slab, &ptr, K_NO_WAIT)`, throwing `bad_alloc`
when the return code is nonzero. -/
def slab_operator_new (s : KMemSlab) : NewResult :=
  let r := k_mem_slab_alloc s
  if r.snd = 0 then .ok r.fst else .badAlloc

/-- Each variant's `operator new` allocates from the single shared
`mutex_slab`; all four bodies are the same slab allocation. -/
def variant_operator_new (_v : MutexVariant) (s : KMemSlab) : NewResult :=
  slab_operator_new s

/-- Each variant's `operator delete` returns its slot to the shared
`mutex_slab` via `k_mem_slab_free` (src/lib/zstd/src/mutex.cpp:94-97 and
the three identical bodies). -/
def variant_operator_delete (_v : MutexVariant) (s : KMemSlab) : KMemSlab :=
  k_mem_slab_free s

/-- Dynamically construct a sequence of mutexes of the given variants on
the shared slab; `none` as soon as one construction throws
`bad_alloc`. -/
def constructAll : List MutexVariant → KMemSlab → Option KMemSlab
  | [], s => some s
  | v :: vs, s =>
    match variant_operator_new v s with
    | .ok s' => constructAll vs s'
    | .badAlloc => none

/-- The `thread::id` value type (src/include/zstd/thread.h:27-37): wraps
one `native_handle_type` (`k_tid_t`) field `m_id`. -/
structure ThreadId where
  m_id : KTid
deriving DecidableEq

/-- The default `thread::id` constructor (thread implementation
fragment): `m_id{0}`, the distinguished "no thread" value. -/
def ThreadId.default_id : ThreadId := ⟨0⟩

/-- The `thread::id(native_handle_type)` constructor: wraps the given
kernel thread handle. -/
def ThreadId.ofHandle (h : KTid) : ThreadId := ⟨h⟩

/-- The `thread::id` of the calling thread, as built by
`this_thread::get_id()`: `thread::id(k_current_get())`. -/
def this_thread.get_id (cur : KTid) : ThreadId := ThreadId.ofHandle cur

/-- Modelled from the spec: the equality comparison on `thread::id`.
Only the `thread::id` constructors appear in the thread implementation
sources under `src/`; the comparison itself is not there.  Per the
spec, two identities compare equal iff they denote the same kernel
thread context, i.e. iff they wrap the same native handle. -/
def ThreadId.eqb (a b : ThreadId) : Bool := a.m_id == b.m_id

/-- The build-time configuration values the thread facilities consume. -/
structure ZstdConfig where
  zstdThreadMaxCount : Nat
  zstdThreadStackSize : Nat

/-- Runtime state of the thread subsystem (how many threads currently
exist); `hardware_concurrency` reads none of it. -/
structure ThreadRuntime where
  liveThreads : Nat

/-- Body of `thread::hardware_concurrency()` (thread implementation
fragment): `return CONFIG_ZSTD_THREAD_MAX_COUNT;`.  The runtime state is
a parameter of the embedding so that independence from it is a provable
statement; the body never touches it. -/
def hardware_concurrency (cfg : ZstdConfig) (_rt : ThreadRuntime) : Nat :=
  cfg.zstdThreadMaxCount

/-- The number of stacks in the fixed thread stack pool:
`K_THREAD_STACK_ARRAY_DEFINE(thread_stack_pool, CONFIG_ZSTD_THREAD_MAX_COUNT,
CONFIG_ZSTD_THREAD_STACK_SIZE)` defines exactly
`CONFIG_ZSTD_THREAD_MAX_COUNT` stacks. -/
def thread_stack_pool_count (cfg : ZstdConfig) : Nat := cfg.zstdThreadMaxCount

/-- Iterate `recursive_mutex::lock` by thread `t`, `n` times; `none` as
soon as one call does not return normally with the lock held. -/
def recLockN (t : KTid) : Nat → KMutex → Option KMutex
  | 0, s => some s
  | n + 1, s =>
    match recursive_mutex.lock s t with
    | .ok s' => recLockN t n s'
    | _ => none

/-- Iterate `recursive_mutex::unlock` by thread `t`, `n` times. -/
def recUnlockN (t : KTid) : Nat → KMutex → KMutex
  | 0, s => s
  | n + 1, s => recUnlockN t n (recursive_mutex.unlock s t).fst

end Zstd

namespace Zstd

/-- C1: for the non-recursive variants (`mutex` and `timed_mutex`, the
latter inheriting `lock`/`try_lock` from the former), every acquisition
operation — `lock`, `try_lock`, `try_lock_for`, `try_lock_until` —
performed while the calling thread is already the recorded owner
(lock count > 0 and owner = caller) reports ResourceDeadlock (throws
`system_error(EDEADLK)`); the owner check precedes the kernel call, so
the operation never suspends, never returns `false` as a busy signal,
and never succeeds. -/
theorem nonrecursive_self_reentry_deadlocks
    (s : KMutex) (cur : KTid) (c num den a b : Int)
    (hcnt : 0 < s.lock_count) (hown : s.owner = cur) :
    mutex.lock s cur = .deadlock ∧
    mutex.try_lock s cur = .deadlock ∧
    timed_mutex.lock s cur = .deadlock ∧
    timed_mutex.try_lock s cur = .deadlock ∧
    timed_mutex.try_lock_for s cur c num den = .deadlock ∧
    timed_mutex.try_lock_until s cur a b num den = .deadlock := by
  simp [mutex.lock, mutex.try_lock, timed_mutex.lock, timed_mutex.try_lock,
    timed_mutex.try_lock_for, timed_mutex.try_lock_until, hcnt, hown]

/-- Witness for C1 at a concrete state: a mutex locked once by thread 7,
re-entered by thread 7 with a 100 ms bound for the timed calls. -/
theorem nonrecursive_self_reentry_deadlocks_witness :
    mutex.lock ⟨1, 7⟩ 7 = .deadlock ∧
    mutex.try_lock ⟨1, 7⟩ 7 = .deadlock ∧
    timed_mutex.lock ⟨1, 7⟩ 7 = .deadlock ∧
    timed_mutex.try_lock ⟨1, 7⟩ 7 = .deadlock ∧
    timed_mutex.try_lock_for ⟨1, 7⟩ 7 100 1 1 = .deadlock ∧
    timed_mutex.try_lock_until ⟨1, 7⟩ 7 250 150 1 1 = .deadlock :=
  nonrecursive_self_reentry_deadlocks ⟨1, 7⟩ 7 100 1 1 250 150 (by decide) rfl

/-- C2: for the recursive variants (`recursive_mutex` and
`recursive_timed_mutex`, the latter inheriting `lock`/`try_lock`),
re-entry by the recorded owner never raises ResourceDeadlock: there is
no owner self-check, the operation goes straight to the kernel acquire,
which counts the re-entry (lock count incremented, same owner) and the
call returns success. -/
theorem recursive_self_reentry_succeeds
    (s : KMutex) (cur : KTid) (c num den a b : Int)
    (hcnt : 0 < s.lock_count) (hown : s.owner = cur) :
    recursive_mutex.lock s cur = .ok ⟨s.lock_count + 1, s.owner⟩ ∧
    recursive_mutex.try_lock s cur = .ok ⟨s.lock_count + 1, s.owner⟩ ∧
    recursive_timed_mutex.lock s cur = .ok ⟨s.lock_count + 1, s.owner⟩ ∧
    recursive_timed_mutex.try_lock s cur = .ok ⟨s.lock_count + 1, s.owner⟩ ∧
    recursive_timed_mutex.try_lock_for s cur c num den =
      .ok ⟨s.lock_count + 1, s.owner⟩ ∧
    recursive_timed_mutex.try_lock_until s cur a b num den =
      .ok ⟨s.lock_count + 1, s.owner⟩ := by
  simp [recursive_mutex.lock, recursive_mutex.try_lock,
    recursive_timed_mutex.lock, recursive_timed_mutex.try_lock,
    recursive_timed_mutex.try_lock_for, recursive_timed_mutex.try_lock_until,
    k_mutex_lock, Nat.pos_iff_ne_zero.mp hcnt, hown]

/-- Witness for C2 at a concrete state: a recursive mutex locked twice
by thread 7, re-entered by thread 7. -/
theorem recursive_self_reentry_succeeds_witness :
    recursive_mutex.lock ⟨2, 7⟩ 7 = .ok ⟨3, 7⟩ ∧
    recursive_mutex.try_lock ⟨2, 7⟩ 7 = .ok ⟨3, 7⟩ ∧
    recursive_timed_mutex.lock ⟨2, 7⟩ 7 = .ok ⟨3, 7⟩ ∧
    recursive_timed_mutex.try_lock ⟨2, 7⟩ 7 = .ok ⟨3, 7⟩ ∧
    recursive_timed_mutex.try_lock_for ⟨2, 7⟩ 7 100 1 1 = .ok ⟨3, 7⟩ ∧
    recursive_timed_mutex.try_lock_until ⟨2, 7⟩ 7 250 150 1 1 = .ok ⟨3, 7⟩ :=
  recursive_self_reentry_succeeds ⟨2, 7⟩ 7 100 1 1 250 150 (by decide) rfl

/-- Counterexample to C3: a requested wait of 2^32 + 5 milliseconds —
longer than the `u32_t` kernel tick argument can represent — is
converted by the `static_cast<u32_t>` chain to 5, its value reduced
modulo 2^32, not to the maximum representable value 2^32 - 1 that a
saturating (clamping) conversion would produce.  The same chain is used
by `try_lock_for`, `try_lock_until`, `sleep_for` and `sleep_until`. -/
theorem duration_conversion_wraps_cex :
    msTimeout (2 ^ 32 + 5) 1 1 = 5 ∧
    this_thread.sleep_for_ticks (2 ^ 32 + 5) 1 1 = 5 ∧
    msTimeout (2 ^ 32 + 5) 1 1 ≠ 2 ^ 32 - 1 := by
  refine ⟨?_, ?_, by decide⟩ <;>
    simp [msTimeout, this_thread.sleep_for_ticks, toU32, toU64, durationCastMs]

/-- C3 amended: the conversion of a requested duration to the kernel
tick argument is modular, not saturating — for every duration whose
millisecond count is nonnegative, the issued tick value is that count
reduced modulo 2^32 (the `u64_t` store followed by
`static_cast<u32_t>`), in every timed-wait request (`try_lock_for`,
`try_lock_until` via the difference to now, `sleep_for`,
`sleep_until`). -/
theorem duration_conversion_modular
    (c num den a b : Int) (h : 0 ≤ durationCastMs c num den)
    (h2 : 0 ≤ durationCastMs (a - b) num den) :
    msTimeout c num den = (durationCastMs c num den).toNat % 2 ^ 32 ∧
    this_thread.sleep_for_ticks c num den =
      (durationCastMs c num den).toNat % 2 ^ 32 ∧
    this_thread.sleep_until_ticks a b num den =
      (durationCastMs (a - b) num den).toNat % 2 ^ 32 := by
  unfold this_thread.sleep_for_ticks this_thread.sleep_until_ticks msTimeout toU32 toU64
  omega

/-- Witness for the amended C3 at the counterexample input: 2^32 + 5
requested milliseconds yield tick value (2^32 + 5) % 2^32 = 5. -/
theorem duration_conversion_modular_witness :
    0 ≤ durationCastMs (2 ^ 32 + 5) 1 1 ∧
    0 ≤ durationCastMs (2 ^ 32 + 5 - 0) 1 1 ∧
    msTimeout (2 ^ 32 + 5) 1 1 = (durationCastMs (2 ^ 32 + 5) 1 1).toNat % 2 ^ 32 :=
  ⟨by decide, by decide,
    (duration_conversion_modular (2 ^ 32 + 5) 1 1 (2 ^ 32 + 5) 0
      (by decide) (by decide)).1⟩

/-- Helper: `recursive_mutex::lock` iterated `n` more times by the
owner on a held mutex keeps succeeding and adds `n` to the count. -/
theorem recLockN_owner (t : KTid) :
    ∀ (n m : Nat), 0 < m → recLockN t n ⟨m, t⟩ = some ⟨m + n, t⟩
  | 0, m, _ => by simp [recLockN]
  | n + 1, m, hm => by
    have h := recLockN_owner t n (m + 1) (by omega)
    simp [recLockN, recursive_mutex.lock, k_mutex_lock,
      Nat.pos_iff_ne_zero.mp hm, h]
    omega

/-- Helper: releasing one level by the owner of a multiply held
recursive mutex. -/
theorem unlock_owner_step (t : KTid) (m : Nat) (hm : 0 < m) :
    (recursive_mutex.unlock ⟨m, t⟩ t).fst =
      ⟨m - 1, if m = 1 then 0 else t⟩ := by
  simp [recursive_mutex.unlock, k_mutex_unlock, hm]

/-- Helper: `k` of `m` matching unlocks by the owner (`k < m`) leave the
mutex held by the owner with count `m - k`. -/
theorem recUnlockN_owner (t : KTid) :
    ∀ (k m : Nat), k < m → recUnlockN t k ⟨m, t⟩ = ⟨m - k, t⟩
  | 0, m, _ => by simp [recUnlockN]
  | k + 1, m, hk => by
    have hstep := unlock_owner_step t m (by omega)
    rw [if_neg (by omega : ¬ m = 1)] at hstep
    have h := recUnlockN_owner t k (m - 1) (by omega)
    simp [recUnlockN, hstep, h]
    omega

/-- Helper: exactly `m` matching unlocks by the owner return the mutex
to the freshly initialized state. -/
theorem recUnlockN_full (t : KTid) :
    ∀ m : Nat, 1 ≤ m → recUnlockN t m ⟨m, t⟩ = k_mutex_init
  | 1, _ => by
    simp [recUnlockN, recursive_mutex.unlock, k_mutex_unlock, k_mutex_init]
  | m + 2, _ => by
    have hstep := unlock_owner_step t (m + 2) (by omega)
    rw [if_neg (by omega : ¬ m + 2 = 1)] at hstep
    have h := recUnlockN_full t (m + 1) (by omega)
    simp only [recUnlockN, hstep]
    simpa using h

/-- C5: starting from a fresh recursive mutex, `N ≥ 1` sequential
`lock()` calls by thread `t` all succeed, ending with count `N` and
owner `t`; after any `k < N` matching unlocks a different thread `u`'s
`try_lock()` still returns `false`; after exactly `N` unlocks the mutex
is back to its initial released state and `u`'s `try_lock()` then
succeeds. -/
theorem recursive_lock_counting
    (t u : KTid) (N : Nat) (hN : 1 ≤ N) (hu : u ≠ t) :
    recLockN t N k_mutex_init = some ⟨N, t⟩ ∧
    (∀ k, k < N → recursive_mutex.try_lock (recUnlockN t k ⟨N, t⟩) u = .failed) ∧
    recUnlockN t N ⟨N, t⟩ = k_mutex_init ∧
    recursive_mutex.try_lock (recUnlockN t N ⟨N, t⟩) u = .ok ⟨1, u⟩ := by
  have htu : ¬ (t = u) := fun h => hu h.symm
  refine ⟨?_, ?_, recUnlockN_full t N hN, ?_⟩
  · obtain ⟨n, rfl⟩ : ∃ n, N = n + 1 := ⟨N - 1, by omega⟩
    have h := recLockN_owner t n 1 (by omega)
    simp [recLockN, recursive_mutex.lock, k_mutex_lock, k_mutex_init, h]
    omega
  · intro k hk
    rw [recUnlockN_owner t k N hk]
    have h1 : (N - k = 0) = False := by
      simp only [eq_iff_iff, iff_false]
      omega
    simp [recursive_mutex.try_lock, k_mutex_lock, htu, h1]
  · rw [recUnlockN_full t N hN]
    simp [recursive_mutex.try_lock, k_mutex_lock, k_mutex_init]

/-- Witness for C5 at `N = 3`, owner thread 7, contender thread 8:
three locks reach count 3, a foreign `try_lock` still fails after two
unlocks, and the third unlock releases the mutex for thread 8. -/
theorem recursive_lock_counting_witness :
    recLockN 7 3 k_mutex_init = some ⟨3, 7⟩ ∧
    recursive_mutex.try_lock (recUnlockN 7 2 ⟨3, 7⟩) 8 = .failed ∧
    recUnlockN 7 3 ⟨3, 7⟩ = k_mutex_init ∧
    recursive_mutex.try_lock (recUnlockN 7 3 ⟨3, 7⟩) 8 = .ok ⟨1, 8⟩ :=
  ⟨(recursive_lock_counting 7 8 3 (by decide) (by decide)).1,
   (recursive_lock_counting 7 8 3 (by decide) (by decide)).2.1 2 (by decide),
   (recursive_lock_counting 7 8 3 (by decide) (by decide)).2.2.1,
   (recursive_lock_counting 7 8 3 (by decide) (by decide)).2.2.2⟩

/-- Counterexample to C4: a requested duration of 1500 ticks of 1/1000
millisecond each (1500 microseconds, i.e. 1.5 ms) is converted to a
1 millisecond kernel wait: `duration_cast<milliseconds>` truncates
toward zero, so the wait issued to the kernel (1 ms = 1000 µs) is
strictly less than the requested 1500 µs — not rounded upward to the
next whole unit as the claim states. -/
theorem duration_conversion_rounds_down_cex :
    durationCastMs 1500 1 1000 = 1 ∧
    msTimeout 1500 1 1000 = 1 ∧
    durationCastMs 1500 1 1000 * 1000 < 1500 * 1 := by
  refine ⟨by decide, ?_, by decide⟩
  unfold msTimeout toU32 toU64 durationCastMs
  decide

/-- C4 amended: for nonnegative durations the conversion to whole
milliseconds truncates toward zero (rounds down): the issued wait never
exceeds the request and undershoots it by strictly less than one unit,
so a duration that is not an exact multiple of a millisecond produces a
kernel wait shorter than requested. -/
theorem duration_conversion_floor
    (c num den : Int) (hden : 0 < den) (hc : 0 ≤ c) (hnum : 0 ≤ num) :
    durationCastMs c num den * den ≤ c * num ∧
    c * num < (durationCastMs c num den + 1) * den := by
  unfold durationCastMs
  rw [Int.tdiv_eq_ediv (by positivity) (le_of_lt hden)]
  constructor
  · exact Int.ediv_mul_le _ (by omega)
  · exact Int.lt_ediv_add_one_mul_self _ hden

/-- Witness for the amended C4 at the counterexample input: 1500 µs is
issued as 1 ms, with 1 · 1000 ≤ 1500 · 1 < (1 + 1) · 1000. -/
theorem duration_conversion_floor_witness :
    (0 : Int) < 1000 ∧ (0 : Int) ≤ 1500 ∧
    durationCastMs 1500 1 1000 * 1000 ≤ 1500 * 1 ∧
    1500 * 1 < (durationCastMs 1500 1 1000 + 1) * 1000 :=
  ⟨by decide, by decide,
    duration_conversion_floor 1500 1 1000 (by decide) (by decide) (by decide)⟩

/-- Helper: a sequence of slab constructions that fits in the remaining
free slots succeeds and allocates exactly its length. -/
theorem constructAll_fits (vs : List MutexVariant) :
    ∀ cap a : Nat, a + vs.length ≤ cap →
      constructAll vs ⟨cap, a⟩ = some ⟨cap, a + vs.length⟩ := by
  induction vs with
  | nil => intro cap a _; simp [constructAll]
  | cons v vs ih =>
    intro cap a h
    have halloc : a < cap := by simp at h; omega
    have hrest := ih cap (a + 1) (by simp at h ⊢; omega)
    simp [constructAll, variant_operator_new, slab_operator_new,
      k_mem_slab_alloc, halloc, hrest]
    omega

/-- C6: under the slab backend with build-time capacity `K`,
dynamically constructing `K` mutex objects of any mix of the four
variants on the shared slab succeeds; the `K+1`-th construction throws
`bad_alloc` immediately (the allocation uses `K_NO_WAIT`, so it cannot
block); after destroying one of the `K` objects the next construction
succeeds again, returning the slab to full occupancy (no slot leaked);
and the shared slot size `MAX_MUTEX_SIZE` fits every variant. -/
theorem pool_capacity_and_reuse
    (K : Nat) (vs : List MutexVariant) (v w x : MutexVariant)
    (sz : MutexVariant → Nat)
    (hlen : vs.length = K) (hK : 0 < K) :
    constructAll vs (slab_init K) = some ⟨K, K⟩ ∧
    variant_operator_new v ⟨K, K⟩ = .badAlloc ∧
    variant_operator_new w (variant_operator_delete x ⟨K, K⟩) = .ok ⟨K, K⟩ ∧
    (∀ y, sz y ≤ MAX_MUTEX_SIZE sz) := by
  refine ⟨?_, ?_, ?_, ?_⟩
  · have h := constructAll_fits vs K 0 (by omega)
    rw [slab_init, h, hlen]
    simp
  · simp [variant_operator_new, slab_operator_new, k_mem_slab_alloc]
  · have h1 : K - 1 < K := by omega
    have h2 : K - 1 + 1 = K := by omega
    simp [variant_operator_new, variant_operator_delete, slab_operator_new,
      k_mem_slab_alloc, k_mem_slab_free, h1, h2]
  · intro y
    cases y <;> (unfold MAX_MUTEX_SIZE; omega)

/-- Witness for C6 at capacity 2 with a mixed sequence (one plain, one
recursive-timed), a timed third construction failing, and reuse after
destroying a plain mutex; slot-size bound instantiated at the timed
variant for a concrete size assignment. -/
theorem pool_capacity_and_reuse_witness :
    constructAll [.plain, .recursiveTimed] (slab_init 2) = some ⟨2, 2⟩ ∧
    variant_operator_new .timed ⟨2, 2⟩ = .badAlloc ∧
    variant_operator_new .recursive (variant_operator_delete .plain ⟨2, 2⟩) =
      .ok ⟨2, 2⟩ ∧
    (fun _ : MutexVariant => 40) .timed ≤
      MAX_MUTEX_SIZE (fun _ : MutexVariant => 40) :=
  ⟨(pool_capacity_and_reuse 2 [.plain, .recursiveTimed] .timed .recursive .plain
      (fun _ => 40) (by decide) (by decide)).1,
   (pool_capacity_and_reuse 2 [.plain, .recursiveTimed] .timed .recursive .plain
      (fun _ => 40) (by decide) (by decide)).2.1,
   (pool_capacity_and_reuse 2 [.plain, .recursiveTimed] .timed .recursive .plain
      (fun _ => 40) (by decide) (by decide)).2.2.1,
   (pool_capacity_and_reuse 2 [.plain, .recursiveTimed] .timed .recursive .plain
      (fun _ => 40) (by decide) (by decide)).2.2.2 .timed⟩

/-- Counterexample to C7: thread 5 calls `unlock()` on a freshly
initialized (unheld) mutex.  The modelled kernel release rejects the
call with a nonzero code, but both `mutex::unlock` and
`recursive_mutex::unlock` discard the kernel result (`void` body with a
bare `k_mutex_unlock(m_mtx_ptr);` statement), so the caller observes no
error signal at all — the condition is silently swallowed, contradicting
the claim that it is surfaced as an InvalidState-class error. -/
theorem unlock_error_swallowed_cex :
    (mutex.unlock k_mutex_init 5).snd = none ∧
    (recursive_mutex.unlock k_mutex_init 5).snd = none ∧
    (k_mutex_unlock k_mutex_init 5).snd ≠ 0 := by
  decide

/-- C7 amended: for every mutex variant, `unlock()` by a thread that
does not hold the mutex is passed to the kernel, whose rejection is
discarded by the adapter — the caller observes no error condition
(second component always `none`) — while the kernel state, and with it
the lock count, is left unchanged (the modelled kernel rejects the
release without corrupting the count). -/
theorem unlock_without_ownership_silent
    (s : KMutex) (cur : KTid) (h : ¬ (0 < s.lock_count ∧ s.owner = cur)) :
    mutex.unlock s cur = (s, none) ∧
    recursive_mutex.unlock s cur = (s, none) ∧
    (k_mutex_unlock s cur).snd ≠ 0 := by
  refine ⟨?_, ?_, ?_⟩ <;>
    simp [mutex.unlock, recursive_mutex.unlock, k_mutex_unlock, h]

/-- Witness for the amended C7: thread 5 unlocking a fresh mutex it
does not hold. -/
theorem unlock_without_ownership_silent_witness :
    mutex.unlock k_mutex_init 5 = (k_mutex_init, none) ∧
    recursive_mutex.unlock k_mutex_init 5 = (k_mutex_init, none) ∧
    (k_mutex_unlock k_mutex_init 5).snd ≠ 0 :=
  unlock_without_ownership_silent k_mutex_init 5 (by decide)

/-- C9: `thread::id` is an opaque, copyable value wrapping one native
kernel thread handle, with the default-constructed value wrapping the
distinguished null handle ("no thread"); the (spec-modelled) equality
comparison is reflexive, symmetric, and yields `true` exactly when the
two identities wrap the same native handle, i.e. denote the same kernel
thread context; in particular the "no thread" value never compares
equal to the identity of an actual kernel thread. -/
theorem thread_id_equality
    (a b : ThreadId) (h : KTid) (hh : h ≠ 0) :
    (ThreadId.eqb a b = true ↔ a.m_id = b.m_id) ∧
    ThreadId.eqb a a = true ∧
    ThreadId.eqb a b = ThreadId.eqb b a ∧
    ThreadId.default_id.m_id = 0 ∧
    ThreadId.eqb ThreadId.default_id (ThreadId.ofHandle h) = false := by
  refine ⟨beq_iff_eq, beq_self_eq_true _, ?_, rfl, ?_⟩
  · unfold ThreadId.eqb
    by_cases hab : a.m_id = b.m_id
    · simp [hab]
    · have hba : ¬ b.m_id = a.m_id := fun e => hab e.symm
      simp [hab, hba]
  · unfold ThreadId.eqb ThreadId.default_id ThreadId.ofHandle
    have h0 : ¬ (0 : KTid) = h := fun e => hh e.symm
    simp [h0]

/-- Witness for C9 with the identities of kernel threads 1 and 2 and a
live handle 3. -/
theorem thread_id_equality_witness :
    (ThreadId.eqb ⟨1⟩ ⟨2⟩ = true ↔ (1 : KTid) = 2) ∧
    ThreadId.eqb ⟨1⟩ ⟨1⟩ = true ∧
    ThreadId.eqb ⟨1⟩ ⟨2⟩ = ThreadId.eqb ⟨2⟩ ⟨1⟩ ∧
    ThreadId.default_id.m_id = 0 ∧
    ThreadId.eqb ThreadId.default_id (ThreadId.ofHandle 3) = false :=
  thread_id_equality ⟨1⟩ ⟨2⟩ 3 (by decide)

/-- C10: `thread::hardware_concurrency()` is the build-time constant
`CONFIG_ZSTD_THREAD_MAX_COUNT`: it is independent of the runtime thread
state and coincides with the number of stacks in the fixed
`thread_stack_pool`. -/
theorem hardware_concurrency_constant
    (cfg : ZstdConfig) (r r' : ThreadRuntime) :
    hardware_concurrency cfg r = cfg.zstdThreadMaxCount ∧
    hardware_concurrency cfg r = hardware_concurrency cfg r' ∧
    hardware_concurrency cfg r = thread_stack_pool_count cfg :=
  ⟨rfl, rfl, rfl⟩

end Zstd
